import Mathlib

/-!
A shallow embedding of the AIS tracker ingestion pipeline
(`src/unnamed/part_001`, with `src/index.js` as a close variant).

Modelling conventions:
* JavaScript numbers carried by feed messages are modelled as `Int`
  (the claims only use identity, comparison and small exact sums, never
  float rounding); an absent / null field is `Option.none`.
* JS truthiness of a number field (`pos.Latitude && ...`) is
  "present and nonzero"; truthiness of a string is "present and nonempty".
* Timestamps are `Int` seconds; `NOW()` is a parameter `now` threaded to
  each operation.
* The SQL tables become Lean lists of rows; `INSERT ... ON CONFLICT (mmsi)
  DO UPDATE` becomes `upsertVessel`, which updates the first row with the
  given key (the `mmsi` column is a primary key, so at most one row
  matches) and appends a fresh row otherwise.
* The `ws.on('message')` callback wraps its whole body in try/catch; the
  body is modelled as `Except` (JSON.parse may throw) and `handleMessage`
  is the catching wrapper, hence a total function.
-/

/-- `x || null` on a JS string: an empty string is falsy and collapses to
null. -/
def strOrNull : Option String → Option String
  | some s => if s = "" then none else some s
  | none => none

/-- Payload of a `PositionReport` message (fields read by the handler). -/
structure PositionReport where
  Latitude : Option Int
  Longitude : Option Int
  Sog : Option Int
  TrueHeading : Option Int
  Cog : Option Int
  NavigationalStatus : Option Int
deriving DecidableEq

/-- Ship dimension block of a `ShipStaticData` message. -/
structure Dimension where
  A : Option Int
  B : Option Int
  C : Option Int
  D : Option Int
deriving DecidableEq

/-- Payload of a `ShipStaticData` message (fields read by the handler).
The source field `Type` is reserved in Lean and is spelled `ShipType`. -/
structure ShipStaticData where
  Name : Option String
  CallSign : Option String
  ImoNumber : Option Int
  ShipType : Option Int
  Dimension : Option Dimension
deriving DecidableEq

/-- The `MetaData` block of an inbound frame.  `time_utc` is the
source-asserted report time carried by the feed protocol; the handler
never reads it. -/
structure MetaData where
  MMSI : Option Int
  ShipName : Option String
  time_utc : Option Int
deriving DecidableEq

/-- `msg.Message`: at most one of the two payloads is populated, but the
JSON shape allows both fields. -/
structure MessagePayload where
  PositionReport : Option PositionReport
  ShipStaticData : Option ShipStaticData
deriving DecidableEq

/-- A parsed inbound frame. -/
structure AISMessage where
  MessageType : String
  Message : Option MessagePayload
  MetaData : Option MetaData
deriving DecidableEq

/-- A raw websocket frame: either JSON that fails to parse (JSON.parse
throws) or a parsed message. -/
inductive RawData where
  | malformed : RawData
  | parsed : AISMessage → RawData
deriving DecidableEq

/-- One row of the `vessels` table. -/
structure VesselRow where
  mmsi : String
  name : Option String
  vessel_type : Option String
  callsign : Option String
  imo : Option String
  flag : Option String
  length : Option Int
  width : Option Int
  last_latitude : Option Int
  last_longitude : Option Int
  last_speed : Option Int
  last_heading : Option Int
  last_position_time : Option Int
  updated_at : Int
deriving DecidableEq

/-- One row of the `ais_positions` table.  `id` is the SERIAL primary
key, `timestamp` the column of that name, `created_at` its
`DEFAULT NOW()` ingestion time. -/
structure PositionRow where
  id : Nat
  mmsi : String
  vessel_name : Option String
  latitude : Int
  longitude : Int
  speed : Int
  heading : Int
  course : Int
  nav_status : String
  timestamp : Int
  message_type : String
  created_at : Int
deriving DecidableEq

/-- The database state: both tables plus the next SERIAL value. -/
structure DB where
  vessels : List VesselRow
  ais_positions : List PositionRow
  nextId : Nat
deriving DecidableEq

def emptyDB : DB := ⟨[], [], 0⟩

/-- `SELECT * FROM vessels WHERE mmsi = key` (primary-key lookup). -/
def findVessel (key : String) (vs : List VesselRow) : Option VesselRow :=
  vs.find? (fun v => v.mmsi == key)

/-- `INSERT ... ON CONFLICT (mmsi) DO UPDATE`: update the first row whose
key matches (at most one exists, `mmsi` being the primary key), else
append the freshly inserted row. -/
def upsertVessel (key : String) (ins : VesselRow) (upd : VesselRow → VesselRow) :
    List VesselRow → List VesselRow
  | [] => [ins]
  | v :: tl => if v.mmsi == key then upd v :: tl else v :: upsertVessel key ins upd tl

/-- The `PositionReport` branch of the message handler: guard
`meta?.MMSI && pos.Latitude && pos.Longitude` (JS truthiness), then the
`ais_positions` INSERT followed by the `vessels` upsert. -/
def positionBranch (now : Int) (m : AISMessage) (db : DB) : DB :=
  if m.MessageType = "PositionReport" then
    match m.Message.bind MessagePayload.PositionReport, m.MetaData with
    | some pos, some meta =>
      match meta.MMSI, pos.Latitude, pos.Longitude with
      | some mm, some lat, some lng =>
        if mm ≠ 0 ∧ lat ≠ 0 ∧ lng ≠ 0 then
          let key := toString mm
          let posRow : PositionRow :=
            { id := db.nextId
              mmsi := key
              vessel_name := strOrNull meta.ShipName
              latitude := lat
              longitude := lng
              speed := pos.Sog.getD 0
              heading := pos.TrueHeading.getD 0
              course := pos.Cog.getD 0
              nav_status := toString (pos.NavigationalStatus.getD 0)
              timestamp := now
              message_type := "PositionReport"
              created_at := now }
          let vname := (strOrNull meta.ShipName).getD ("Vessel " ++ toString mm)
          let ins : VesselRow :=
            { mmsi := key, name := some vname, vessel_type := none, callsign := none
              imo := none, flag := none, length := none, width := none
              last_latitude := some lat, last_longitude := some lng
              last_speed := some (pos.Sog.getD 0), last_heading := some (pos.TrueHeading.getD 0)
              last_position_time := some now, updated_at := now }
          let upd : VesselRow → VesselRow := fun v =>
            { v with last_latitude := some lat, last_longitude := some lng
                     last_speed := some (pos.Sog.getD 0)
                     last_heading := some (pos.TrueHeading.getD 0)
                     last_position_time := some now, updated_at := now }
          { vessels := upsertVessel key ins upd db.vessels
            ais_positions := db.ais_positions ++ [posRow]
            nextId := db.nextId + 1 }
        else db
      | _, _, _ => db
    | _, _ => db
  else db

/-- `String(ship.Type || 'unknown')`: a missing or zero type code becomes
the literal string "unknown". -/
def shipTypeString (t : Option Int) : String :=
  match t with
  | some tv => if tv ≠ 0 then toString tv else "unknown"
  | none => "unknown"

/-- `ship.Dimension?.X || 0`: offset of an axis, absent block or absent
field treated as 0. -/
def dimGet (d : Option Dimension) (f : Dimension → Option Int) : Int :=
  match d with
  | none => 0
  | some dd => (f dd).getD 0

/-- `(a || 0) + (b || 0) || null`: a zero per-axis sum is stored as SQL
NULL, never as the number 0. -/
def dimStored (x y : Int) : Option Int :=
  if x + y = 0 then none else some (x + y)

/-- `ship.ImoNumber ? String(ship.ImoNumber) : null` (JS truthiness of
the ternary condition). -/
def imoString (n : Option Int) : Option String :=
  match n with
  | some nv => if nv ≠ 0 then some (toString nv) else none
  | none => none

/-- The `ShipStaticData` branch: guard `meta?.MMSI`, then the `vessels`
upsert that overwrites the descriptive columns. -/
def staticBranch (now : Int) (m : AISMessage) (db : DB) : DB :=
  if m.MessageType = "ShipStaticData" then
    match m.Message.bind MessagePayload.ShipStaticData, m.MetaData with
    | some ship, some meta =>
      match meta.MMSI with
      | some mm =>
        if mm ≠ 0 then
          let key := toString mm
          let name := ((strOrNull ship.Name).orElse
            (fun _ => strOrNull meta.ShipName)).getD ("Vessel " ++ toString mm)
          let len := dimStored (dimGet ship.Dimension Dimension.A) (dimGet ship.Dimension Dimension.B)
          let wid := dimStored (dimGet ship.Dimension Dimension.C) (dimGet ship.Dimension Dimension.D)
          let ins : VesselRow :=
            { mmsi := key, name := some name, vessel_type := some (shipTypeString ship.ShipType)
              callsign := strOrNull ship.CallSign, imo := imoString ship.ImoNumber
              flag := none, length := len, width := wid
              last_latitude := none, last_longitude := none, last_speed := none
              last_heading := none, last_position_time := none, updated_at := now }
          let upd : VesselRow → VesselRow := fun v =>
            { v with name := some name, callsign := strOrNull ship.CallSign
                     imo := imoString ship.ImoNumber
                     vessel_type := some (shipTypeString ship.ShipType)
                     length := len, width := wid, updated_at := now }
          { db with vessels := upsertVessel key ins upd db.vessels }
        else db
      | none => db
    | _, _ => db
  else db

/-- Body of the `ws.on('message')` callback: JSON.parse (which may
throw), then the two sequential `if` branches. -/
def handleBody (now : Int) (raw : RawData) (db : DB) : Except String DB :=
  match raw with
  | .malformed => .error "JSON parse error"
  | .parsed m => .ok (staticBranch now m (positionBranch now m db))

/-- The full message handler: the body runs inside try/catch, a caught
error logs and leaves the state unchanged, so the handler is a total
function and no exception escapes to the stream. -/
def handleMessage (now : Int) (raw : RawData) (db : DB) : DB :=
  match handleBody now raw db with
  | .ok db2 => db2
  | .error _ => db

/-- Seconds in the `INTERVAL '48 hours'` retention window. -/
def retentionWindow : Int := 48 * 60 * 60

/-- `DELETE FROM ais_positions WHERE created_at < NOW() - INTERVAL '48 hours'`
(the age-based step of `cleanupOldData`). -/
def ageCleanup (now : Int) (db : DB) : DB :=
  { db with ais_positions :=
      db.ais_positions.filter (fun r => !decide (r.created_at < now - retentionWindow)) }

/-- The 70 GB ceiling compared against `pg_database_size / 1024^3`. -/
def sizeCeiling : Nat := 70 * 1024 * 1024 * 1024

/-- Comparison key of `ORDER BY created_at ASC`. -/
def byCreatedAt (a b : PositionRow) : Bool := a.created_at ≤ b.created_at

/-- The size-based step of `cleanupOldData`: if the measured database
size exceeds the ceiling, delete the rows whose ids are the first
`Math.ceil(count * 0.1)` of `SELECT id FROM ais_positions ORDER BY
created_at ASC` (float `ceil(n * 0.1)` modelled exactly as `⌈n/10⌉`).
`sizeBytes` is the externally measured `pg_database_size`. -/
def sizeCleanup (sizeBytes : Nat) (db : DB) : DB :=
  if sizeBytes > sizeCeiling then
    let toDelete := (db.ais_positions.length + 9) / 10
    let victimIds := ((db.ais_positions.mergeSort byCreatedAt).take toDelete).map PositionRow.id
    { db with ais_positions :=
        db.ais_positions.filter (fun r => !victimIds.contains r.id) }
  else db

/-- `cleanupOldData`: the age-based delete, then the size check. -/
def cleanupOldData (now : Int) (sizeBytes : Nat) (db : DB) : DB :=
  sizeCleanup sizeBytes (ageCleanup now db)

/-- Leading decimal digits of a character list, `none` when the first
character is not a digit (the NaN case of `parseInt`). -/
def leadingNat (cs : List Char) : Option Nat :=
  match cs.takeWhile Char.isDigit with
  | [] => none
  | ds => some (ds.foldl (fun acc c => 10 * acc + (c.toNat - 48)) 0)

/-- JS `parseInt` on a string (radix 10): skip leading whitespace, accept
an optional sign, read leading digits, NaN (`none`) when no digit
follows. -/
def parseIntJS (s : String) : Option Int :=
  let cs := s.toList.dropWhile (fun c => c == ' ' || c == '\t' || c == '\n' || c == '\r')
  match cs with
  | '-' :: rest => (leadingNat rest).map (fun n => -(n : Int))
  | '+' :: rest => (leadingNat rest).map (fun n => (n : Int))
  | rest => (leadingNat rest).map (fun n => (n : Int))

/-- `parseInt(req.query.limit) || 500` in the `/api/positions` handler:
an absent parameter is JS `undefined`, whose `parseInt` is NaN; NaN and
0 are falsy, so both fall back to 500. -/
def apiPositionsLimit (limitParam : Option String) : Int :=
  match limitParam with
  | none => 500
  | some s =>
    match parseIntJS s with
    | none => 500
    | some v => if v = 0 then 500 else v

/-- A history row ingested at T-72h for `now = 300000`. -/
def oldRow : PositionRow :=
  ⟨0, "7", none, 1, 1, 0, 0, 0, "0", 40800, "PositionReport", 40800⟩

/-- A history row ingested at T-1h for `now = 300000`. -/
def recentRow : PositionRow :=
  ⟨1, "7", none, 2, 2, 0, 0, 0, "0", 296400, "PositionReport", 296400⟩

/-- A valid position payload with every optional field absent. -/
def posPayloadEx : PositionReport := ⟨some 10, some 20, none, none, none, none⟩

/-- A valid position message; its metadata asserts report time 555,
which the handler never reads. -/
def msgPosEx : AISMessage :=
  ⟨"PositionReport", some ⟨some posPayloadEx, none⟩, some ⟨some 7, none, some 555⟩⟩

/-- A position payload whose latitude is the number 0 (non-null). -/
def posZeroLat : PositionReport := ⟨some 0, some 20, none, none, none, none⟩

/-- A position message at the equator: non-empty identity key, non-null
coordinates, latitude 0. -/
def msgZeroLat : AISMessage :=
  ⟨"PositionReport", some ⟨some posZeroLat, none⟩, some ⟨some 227006760, none, none⟩⟩

/-- A position message whose metadata lacks the identity key. -/
def msgNoKey : AISMessage :=
  ⟨"PositionReport", some ⟨some posPayloadEx, none⟩, some ⟨none, none, none⟩⟩

/-- A static payload with name, type 36 and dimensions A=3, B=4. -/
def shipEx : ShipStaticData :=
  ⟨some "Beluga", none, none, some 36, some ⟨some 3, some 4, none, none⟩⟩

/-- A valid static message. -/
def msgStaticEx : AISMessage :=
  ⟨"ShipStaticData", some ⟨none, some shipEx⟩, some ⟨some 7, none, none⟩⟩

/-- A three-row history store with distinct ids, oldest row id 1. -/
def dbC6 : DB :=
  ⟨[], [⟨0, "7", none, 1, 1, 0, 0, 0, "0", 10, "PositionReport", 10⟩,
        ⟨1, "8", none, 2, 2, 0, 0, 0, "0", 5, "PositionReport", 5⟩,
        ⟨2, "9", none, 3, 3, 0, 0, 0, "0", 7, "PositionReport", 7⟩], 3⟩

/-- The inputs the pipeline drops: unparsable frames, position reports
missing the identity key, the payload or either coordinate, static
reports missing the identity key, and unrecognized kinds. -/
def droppedInput : RawData → Prop
  | .malformed => True
  | .parsed m =>
    (m.MessageType = "PositionReport" ∧
      (m.MetaData.bind MetaData.MMSI = none
        ∨ m.Message.bind MessagePayload.PositionReport = none
        ∨ (∃ pos, m.Message.bind MessagePayload.PositionReport = some pos
            ∧ (pos.Latitude = none ∨ pos.Longitude = none))))
    ∨ (m.MessageType = "ShipStaticData" ∧ m.MetaData.bind MetaData.MMSI = none)
    ∨ (m.MessageType ≠ "PositionReport" ∧ m.MessageType ≠ "ShipStaticData")

example : apiPositionsLimit (some "0") = 500 := by decide
example : apiPositionsLimit (some "  -12x") = -12 := by decide
example : apiPositionsLimit (some "250") = 250 := by decide
example : apiPositionsLimit (some "abc") = 500 := by decide

example :
    (cleanupOldData 300000 0
      ⟨[], [⟨0, "7", none, 1, 1, 0, 0, 0, "0", 40800, "PositionReport", 40800⟩,
            ⟨1, "7", none, 2, 2, 0, 0, 0, "0", 296400, "PositionReport", 296400⟩], 2⟩).ais_positions
    = [⟨1, "7", none, 2, 2, 0, 0, 0, "0", 296400, "PositionReport", 296400⟩] := by decide

example :
    (handleMessage 50
      (.parsed ⟨"PositionReport",
        some ⟨some ⟨some 10, some 20, none, none, none, none⟩, none⟩,
        some ⟨some 7, none, none⟩⟩) emptyDB).ais_positions
    = [⟨0, "7", none, 10, 20, 0, 0, 0, "0", 50, "PositionReport", 50⟩] := by decide

example :
    (handleMessage 50
      (.parsed ⟨"PositionReport",
        some ⟨some ⟨some 0, some 20, none, none, none, none⟩, none⟩,
        some ⟨some 7, none, none⟩⟩) emptyDB) = emptyDB := by decide

example :
    (handleMessage 50
      (.parsed ⟨"ShipStaticData",
        some ⟨none, some ⟨some "Beluga", none, none, some 36, some ⟨some 3, some 4, none, none⟩⟩⟩,
        some ⟨some 7, none, none⟩⟩) emptyDB).vessels
    = [⟨"7", some "Beluga", some "36", none, none, none, some 7, none,
        none, none, none, none, none, 50⟩] := by decide

/-- A pre-existing vessel row for identity key "7" with every column
populated. -/
def vRow7 : VesselRow :=
  ⟨"7", some "Old", some "36", some "CS", some "123", none, some 7, some 3,
   some 1, some 2, some 3, some 4, some 5, 10⟩

/-- A vessels table already holding `vRow7`. -/
def dbWithVessel : DB := ⟨[vRow7], [], 0⟩

/-- Lookup after an upsert: the key's row is the updated old row when one
existed, else the inserted row.  Needs only that `ins` carries the key
and `upd` preserves the key column (SQL UPDATE never rewrites the
primary key). -/
theorem findVessel_upsertVessel (key : String) (ins : VesselRow)
    (upd : VesselRow → VesselRow) (vs : List VesselRow)
    (hins : ins.mmsi = key) (hupd : ∀ v, (upd v).mmsi = v.mmsi) :
    findVessel key (upsertVessel key ins upd vs) =
      some ((findVessel key vs).elim ins upd) := by
  induction vs with
  | nil => simp [upsertVessel, findVessel, List.find?, hins]
  | cons v tl ih =>
    by_cases h : v.mmsi = key
    · simp [upsertVessel, findVessel, List.find?, h, hupd]
    · have hb : (v.mmsi == key) = false := by simpa using h
      simp only [upsertVessel, hb, Bool.false_eq_true, if_false]
      simp only [findVessel, List.find?, hb]
      exact ih

/-- A message whose kind is not `ShipStaticData` skips the static
branch. -/
theorem staticBranch_skip (now : Int) (m : AISMessage) (db : DB)
    (h : m.MessageType ≠ "ShipStaticData") : staticBranch now m db = db := by
  unfold staticBranch
  rw [if_neg h]

/-- A message whose kind is not `PositionReport` skips the position
branch. -/
theorem positionBranch_skip (now : Int) (m : AISMessage) (db : DB)
    (h : m.MessageType ≠ "PositionReport") : positionBranch now m db = db := by
  unfold positionBranch
  rw [if_neg h]

/-- Evaluation of the handler on a valid position message: the history
INSERT and the vessels upsert, spelled out. -/
theorem handleMessage_position_eq
    (now : Int) (db : DB) (m : AISMessage) (meta : MetaData) (pos : PositionReport)
    (mm lat lng : Int)
    (hty : m.MessageType = "PositionReport")
    (hpos : m.Message.bind MessagePayload.PositionReport = some pos)
    (hmeta : m.MetaData = some meta)
    (hmm : meta.MMSI = some mm) (hmm0 : mm ≠ 0)
    (hlat : pos.Latitude = some lat) (hlat0 : lat ≠ 0)
    (hlng : pos.Longitude = some lng) (hlng0 : lng ≠ 0) :
    handleMessage now (.parsed m) db =
      { vessels := upsertVessel (toString mm)
          ({ mmsi := toString mm
             name := some ((strOrNull meta.ShipName).getD ("Vessel " ++ toString mm))
             vessel_type := none, callsign := none, imo := none, flag := none
             length := none, width := none
             last_latitude := some lat, last_longitude := some lng
             last_speed := some (pos.Sog.getD 0), last_heading := some (pos.TrueHeading.getD 0)
             last_position_time := some now, updated_at := now })
          (fun v => { v with last_latitude := some lat, last_longitude := some lng
                             last_speed := some (pos.Sog.getD 0)
                             last_heading := some (pos.TrueHeading.getD 0)
                             last_position_time := some now, updated_at := now })
          db.vessels
        ais_positions := db.ais_positions ++
          [{ id := db.nextId, mmsi := toString mm
             vessel_name := strOrNull meta.ShipName
             latitude := lat, longitude := lng
             speed := pos.Sog.getD 0, heading := pos.TrueHeading.getD 0
             course := pos.Cog.getD 0
             nav_status := toString (pos.NavigationalStatus.getD 0)
             timestamp := now, message_type := "PositionReport", created_at := now }]
        nextId := db.nextId + 1 } := by
  obtain ⟨mty, mmsg, mmeta⟩ := m
  obtain ⟨metaMMSI, metaName, metaTime⟩ := meta
  obtain ⟨plat, plng, psog, phdg, pcog, pnav⟩ := pos
  dsimp only at hty hpos hmeta hmm hlat hlng ⊢
  subst hty hmeta
  cases mmsg with
  | none => exact absurd hpos (by simp)
  | some pl =>
    obtain ⟨plPos, plStatic⟩ := pl
    simp only [Option.some_bind, AISMessage.Message] at hpos
    subst hpos hmm hlat hlng
    simp [handleMessage, handleBody, positionBranch, staticBranch, hmm0, hlat0, hlng0]

/-- Evaluation of the handler on a valid static message: the vessels
upsert that rewrites the descriptive columns, spelled out. -/
theorem handleMessage_static_eq
    (now : Int) (db : DB) (m : AISMessage) (meta : MetaData) (ship : ShipStaticData)
    (mm : Int)
    (hty : m.MessageType = "ShipStaticData")
    (hship : m.Message.bind MessagePayload.ShipStaticData = some ship)
    (hmeta : m.MetaData = some meta)
    (hmm : meta.MMSI = some mm) (hmm0 : mm ≠ 0) :
    handleMessage now (.parsed m) db =
      { db with
          vessels := upsertVessel (toString mm)
            ({ mmsi := toString mm
               name := some (((strOrNull ship.Name).orElse
                 (fun _ => strOrNull meta.ShipName)).getD ("Vessel " ++ toString mm))
               vessel_type := some (shipTypeString ship.ShipType)
               callsign := strOrNull ship.CallSign
               imo := imoString ship.ImoNumber
               flag := none
               length := dimStored (dimGet ship.Dimension Dimension.A) (dimGet ship.Dimension Dimension.B)
               width := dimStored (dimGet ship.Dimension Dimension.C) (dimGet ship.Dimension Dimension.D)
               last_latitude := none, last_longitude := none, last_speed := none
               last_heading := none, last_position_time := none, updated_at := now })
            (fun v => { v with
              name := some (((strOrNull ship.Name).orElse
                (fun _ => strOrNull meta.ShipName)).getD ("Vessel " ++ toString mm))
              callsign := strOrNull ship.CallSign
              imo := imoString ship.ImoNumber
              vessel_type := some (shipTypeString ship.ShipType)
              length := dimStored (dimGet ship.Dimension Dimension.A) (dimGet ship.Dimension Dimension.B)
              width := dimStored (dimGet ship.Dimension Dimension.C) (dimGet ship.Dimension Dimension.D)
              updated_at := now })
            db.vessels } := by
  obtain ⟨mty, mmsg, mmeta⟩ := m
  obtain ⟨metaMMSI, metaName, metaTime⟩ := meta
  dsimp only at hty hship hmeta hmm ⊢
  subst hty hmeta
  cases mmsg with
  | none => exact absurd hship (by simp)
  | some pl =>
    obtain ⟨plPos, plStatic⟩ := pl
    simp only [Option.some_bind, AISMessage.Message] at hship
    subst hship hmm
    simp [handleMessage, handleBody, positionBranch, staticBranch, hmm0]

/-- Claim C1, counterexample: a position message carrying a non-empty
identity key and non-null coordinates, with latitude the number 0 (the
equator), appends no history row at all — the handler's JS truthiness
guard drops it, refuting the claim as stated. -/
theorem position_zero_latitude_dropped :
    (msgZeroLat.MetaData.bind MetaData.MMSI).map (fun n => toString n) = some "227006760"
    ∧ ("227006760" : String) ≠ ""
    ∧ posZeroLat.Latitude ≠ none ∧ posZeroLat.Longitude ≠ none
    ∧ (handleMessage 1000 (.parsed msgZeroLat) emptyDB).ais_positions = [] := by
  refine ⟨by decide, by decide, by decide, by decide, rfl⟩

/-- Claim C1 (amended): for every position message whose metadata carries
a truthy (present, nonzero) identity key and whose payload carries
non-null *and nonzero* latitude and longitude, processing appends
exactly one row to `ais_positions` and leaves the vessel row for that
key holding the message's latitude, longitude, speed and heading. -/
theorem position_report_dual_write
    (now : Int) (db : DB) (m : AISMessage) (meta : MetaData) (pos : PositionReport)
    (mm lat lng : Int)
    (hty : m.MessageType = "PositionReport")
    (hpos : m.Message.bind MessagePayload.PositionReport = some pos)
    (hmeta : m.MetaData = some meta)
    (hmm : meta.MMSI = some mm) (hmm0 : mm ≠ 0)
    (hlat : pos.Latitude = some lat) (hlat0 : lat ≠ 0)
    (hlng : pos.Longitude = some lng) (hlng0 : lng ≠ 0) :
    (handleMessage now (.parsed m) db).ais_positions
      = db.ais_positions ++
        [⟨db.nextId, toString mm, strOrNull meta.ShipName, lat, lng,
          pos.Sog.getD 0, pos.TrueHeading.getD 0, pos.Cog.getD 0,
          toString (pos.NavigationalStatus.getD 0), now, "PositionReport", now⟩]
    ∧ ∃ v, findVessel (toString mm) (handleMessage now (.parsed m) db).vessels = some v
        ∧ v.last_latitude = some lat ∧ v.last_longitude = some lng
        ∧ v.last_speed = some (pos.Sog.getD 0)
        ∧ v.last_heading = some (pos.TrueHeading.getD 0) := by
  rw [handleMessage_position_eq now db m meta pos mm lat lng hty hpos hmeta hmm hmm0 hlat
    hlat0 hlng hlng0]
  refine ⟨rfl, ?_⟩
  dsimp only
  rw [findVessel_upsertVessel (toString mm)]
  · cases findVessel (toString mm) db.vessels with
    | none => exact ⟨_, rfl, rfl, rfl, rfl, rfl⟩
    | some v0 => exact ⟨_, rfl, rfl, rfl, rfl, rfl⟩
  · rfl
  · intro v
    rfl

/-- Witness for the amended claim C1 at a concrete valid position
message. -/
theorem position_report_dual_write_witness :
    ((7 : Int) ≠ 0 ∧ (10 : Int) ≠ 0 ∧ (20 : Int) ≠ 0)
    ∧ ((handleMessage 50 (.parsed msgPosEx) emptyDB).ais_positions
        = emptyDB.ais_positions ++
          [⟨emptyDB.nextId, toString (7 : Int),
            strOrNull (MetaData.ShipName ⟨some 7, none, some 555⟩), 10, 20,
            posPayloadEx.Sog.getD 0, posPayloadEx.TrueHeading.getD 0, posPayloadEx.Cog.getD 0,
            toString (posPayloadEx.NavigationalStatus.getD 0), 50, "PositionReport", 50⟩]
      ∧ ∃ v, findVessel (toString (7 : Int))
            (handleMessage 50 (.parsed msgPosEx) emptyDB).vessels = some v
          ∧ v.last_latitude = some 10 ∧ v.last_longitude = some 20
          ∧ v.last_speed = some (posPayloadEx.Sog.getD 0)
          ∧ v.last_heading = some (posPayloadEx.TrueHeading.getD 0)) :=
  ⟨⟨by decide, by decide, by decide⟩,
   position_report_dual_write 50 emptyDB msgPosEx ⟨some 7, none, some 555⟩ posPayloadEx 7 10 20
     rfl rfl rfl rfl (by decide) rfl (by decide) rfl (by decide)⟩

/-- Claim C2: a malformed message, a position report missing the
identity key, the position payload or either coordinate, a static
report missing the identity key, or an unrecognized kind, writes zero
rows to either store; `handleMessage` is the try/catch wrapper (a total
function), so no exception escapes the handler. -/
theorem invalid_message_no_writes (now : Int) (raw : RawData) (db : DB)
    (h : droppedInput raw) : handleMessage now raw db = db := by
  cases raw with
  | malformed => rfl
  | parsed m =>
    have hstep : handleMessage now (.parsed m) db
        = staticBranch now m (positionBranch now m db) := rfl
    rcases h with ⟨hty, hmiss⟩ | ⟨hty, hmm⟩ | ⟨h1, h2⟩
    · rw [hstep, staticBranch_skip now m _ (by rw [hty]; decide)]
      unfold positionBranch
      rw [hty, if_pos rfl]
      cases hmsgb : m.Message.bind MessagePayload.PositionReport with
      | none => rfl
      | some pos' =>
        cases hmd : m.MetaData with
        | none => rfl
        | some meta' =>
          dsimp only
          cases hmm' : meta'.MMSI with
          | none => rfl
          | some mmv =>
            cases hlatv : pos'.Latitude with
            | none => rfl
            | some latv =>
              cases hlngv : pos'.Longitude with
              | none => rfl
              | some lngv =>
                exfalso
                rcases hmiss with hk | hpl | ⟨pos, hpl, hc⟩
                · rw [hmd] at hk
                  simp only [Option.some_bind] at hk
                  rw [hk] at hmm'
                  cases hmm'
                · rw [hpl] at hmsgb
                  cases hmsgb
                · rw [hpl] at hmsgb
                  injection hmsgb with h'
                  subst h'
                  rcases hc with hc | hc
                  · rw [hc] at hlatv
                    cases hlatv
                  · rw [hc] at hlngv
                    cases hlngv
    · rw [hstep, positionBranch_skip now m _ (by rw [hty]; decide)]
      unfold staticBranch
      rw [hty, if_pos rfl]
      cases hmsgb : m.Message.bind MessagePayload.ShipStaticData with
      | none => rfl
      | some ship' =>
        cases hmd : m.MetaData with
        | none => rfl
        | some meta' =>
          dsimp only
          cases hmm' : meta'.MMSI with
          | none => rfl
          | some mmv =>
            exfalso
            rw [hmd] at hmm
            simp only [Option.some_bind] at hmm
            rw [hmm] at hmm'
            cases hmm'
    · rw [hstep, positionBranch_skip now m db h1, staticBranch_skip now m db h2]

/-- Witness for claim C2 at a position message lacking the identity
key. -/
theorem invalid_message_no_writes_witness :
    droppedInput (.parsed msgNoKey)
    ∧ handleMessage 50 (.parsed msgNoKey) emptyDB = emptyDB :=
  ⟨Or.inl ⟨rfl, Or.inl rfl⟩,
   invalid_message_no_writes 50 (.parsed msgNoKey) emptyDB (Or.inl ⟨rfl, Or.inl rfl⟩)⟩

/-- Claim C5: with the 48-hour window, the age-based step keeps a
history row iff it already existed and its server-assigned ingestion
timestamp is at most 48 hours old (so it deletes exactly the rows more
than 48 hours old and no others); in particular, of two rows ingested
at T-72h and T-1h only the T-72h row is deleted. -/
theorem age_retention_exact :
    (∀ (now : Int) (db : DB) (r : PositionRow),
        r ∈ (ageCleanup now db).ais_positions ↔
          r ∈ db.ais_positions ∧ ¬(now - r.created_at > retentionWindow))
    ∧ (ageCleanup 300000 ⟨[], [oldRow, recentRow], 2⟩).ais_positions = [recentRow] := by
  constructor
  · intro now db r
    simp only [ageCleanup, List.mem_filter, Bool.not_eq_eq_eq_not, Bool.not_true,
      decide_eq_false_iff_not, not_lt, retentionWindow]
    constructor
    · rintro ⟨h1, h2⟩
      exact ⟨h1, by omega⟩
    · rintro ⟨h1, h2⟩
      exact ⟨h1, by omega⟩
  · decide

/-- Claim C10: in the history-listing endpoint, an absent, non-numeric
or zero `limit` parameter yields the default row limit 500, and any
positive parsed limit is applied as given. -/
theorem api_positions_limit_spec :
    apiPositionsLimit none = 500
    ∧ (∀ s, parseIntJS s = none → apiPositionsLimit (some s) = 500)
    ∧ (∀ s, parseIntJS s = some 0 → apiPositionsLimit (some s) = 500)
    ∧ (∀ s n, parseIntJS s = some n → 0 < n → apiPositionsLimit (some s) = n) := by
  refine ⟨rfl, ?_, ?_, ?_⟩
  · intro s hs
    simp [apiPositionsLimit, hs]
  · intro s hs
    simp [apiPositionsLimit, hs]
  · intro s n hs hn
    rw [apiPositionsLimit, hs]
    exact if_neg (by omega)

/-- Witness for claim C10 at an absent, a non-numeric, a zero and a
positive limit parameter. -/
theorem api_positions_limit_spec_witness :
    (parseIntJS "abc" = none ∧ apiPositionsLimit (some "abc") = 500)
    ∧ (parseIntJS "0" = some 0 ∧ apiPositionsLimit (some "0") = 500)
    ∧ (parseIntJS "250" = some 250 ∧ 0 < 250 ∧ apiPositionsLimit (some "250") = 250) :=
  ⟨⟨by decide, api_positions_limit_spec.2.1 "abc" (by decide)⟩,
   ⟨by decide, api_positions_limit_spec.2.2.1 "0" (by decide)⟩,
   ⟨by decide, by decide, api_positions_limit_spec.2.2.2 "250" 250 (by decide) (by decide)⟩⟩

/-- Claim C3: a position event never overwrites the descriptive columns
(name, call sign, registry number, vessel type, length, width) of an
existing vessel row, and a static event never overwrites the positional
columns (last latitude/longitude/speed/heading/position time). -/
theorem merge_field_isolation :
    (∀ (now : Int) (db : DB) (m : AISMessage) (meta : MetaData) (pos : PositionReport)
        (mm lat lng : Int) (v : VesselRow),
        m.MessageType = "PositionReport" →
        m.Message.bind MessagePayload.PositionReport = some pos →
        m.MetaData = some meta →
        meta.MMSI = some mm → mm ≠ 0 →
        pos.Latitude = some lat → lat ≠ 0 →
        pos.Longitude = some lng → lng ≠ 0 →
        findVessel (toString mm) db.vessels = some v →
        ∃ v2, findVessel (toString mm) (handleMessage now (.parsed m) db).vessels = some v2
          ∧ v2.name = v.name ∧ v2.callsign = v.callsign ∧ v2.imo = v.imo
          ∧ v2.vessel_type = v.vessel_type ∧ v2.length = v.length ∧ v2.width = v.width)
    ∧ (∀ (now : Int) (db : DB) (m : AISMessage) (meta : MetaData) (ship : ShipStaticData)
        (mm : Int) (v : VesselRow),
        m.MessageType = "ShipStaticData" →
        m.Message.bind MessagePayload.ShipStaticData = some ship →
        m.MetaData = some meta →
        meta.MMSI = some mm → mm ≠ 0 →
        findVessel (toString mm) db.vessels = some v →
        ∃ v2, findVessel (toString mm) (handleMessage now (.parsed m) db).vessels = some v2
          ∧ v2.last_latitude = v.last_latitude ∧ v2.last_longitude = v.last_longitude
          ∧ v2.last_speed = v.last_speed ∧ v2.last_heading = v.last_heading
          ∧ v2.last_position_time = v.last_position_time) := by
  constructor
  · intro now db m meta pos mm lat lng v hty hpos hmeta hmm hmm0 hlat hlat0 hlng hlng0 hfv
    rw [handleMessage_position_eq now db m meta pos mm lat lng hty hpos hmeta hmm hmm0 hlat
      hlat0 hlng hlng0]
    dsimp only
    rw [findVessel_upsertVessel (toString mm)]
    · rw [hfv]
      exact ⟨_, rfl, rfl, rfl, rfl, rfl, rfl, rfl⟩
    · rfl
    · intro w
      rfl
  · intro now db m meta ship mm v hty hship hmeta hmm hmm0 hfv
    rw [handleMessage_static_eq now db m meta ship mm hty hship hmeta hmm hmm0]
    dsimp only
    rw [findVessel_upsertVessel (toString mm)]
    · rw [hfv]
      exact ⟨_, rfl, rfl, rfl, rfl, rfl, rfl⟩
    · rfl
    · intro w
      rfl

/-- Witness for claim C3: both parts applied to an existing fully
populated vessel row for key "7". -/
theorem merge_field_isolation_witness :
    findVessel (toString (7 : Int)) dbWithVessel.vessels = some vRow7
    ∧ (∃ v2, findVessel (toString (7 : Int))
          (handleMessage 50 (.parsed msgPosEx) dbWithVessel).vessels = some v2
        ∧ v2.name = vRow7.name ∧ v2.callsign = vRow7.callsign ∧ v2.imo = vRow7.imo
        ∧ v2.vessel_type = vRow7.vessel_type ∧ v2.length = vRow7.length
        ∧ v2.width = vRow7.width)
    ∧ (∃ v2, findVessel (toString (7 : Int))
          (handleMessage 50 (.parsed msgStaticEx) dbWithVessel).vessels = some v2
        ∧ v2.last_latitude = vRow7.last_latitude ∧ v2.last_longitude = vRow7.last_longitude
        ∧ v2.last_speed = vRow7.last_speed ∧ v2.last_heading = vRow7.last_heading
        ∧ v2.last_position_time = vRow7.last_position_time) :=
  ⟨by decide,
   merge_field_isolation.1 50 dbWithVessel msgPosEx ⟨some 7, none, some 555⟩ posPayloadEx
     7 10 20 vRow7 rfl rfl rfl rfl (by decide) rfl (by decide) rfl (by decide) (by decide),
   merge_field_isolation.2 50 dbWithVessel msgStaticEx ⟨some 7, none, none⟩ shipEx
     7 vRow7 rfl rfl rfl rfl (by decide) (by decide)⟩

/-- Claim C4: applying the same static-data event twice yields a vessel
row identical to applying it once in every column except `updated_at`,
which advances from the first to the second application time. -/
theorem static_upsert_idempotent
    (t1 t2 : Int) (db : DB) (m : AISMessage) (meta : MetaData) (ship : ShipStaticData)
    (mm : Int)
    (hty : m.MessageType = "ShipStaticData")
    (hship : m.Message.bind MessagePayload.ShipStaticData = some ship)
    (hmeta : m.MetaData = some meta)
    (hmm : meta.MMSI = some mm) (hmm0 : mm ≠ 0)
    (ht : t1 < t2) :
    ∃ r1 r2,
      findVessel (toString mm) (handleMessage t1 (.parsed m) db).vessels = some r1
      ∧ findVessel (toString mm)
          (handleMessage t2 (.parsed m) (handleMessage t1 (.parsed m) db)).vessels = some r2
      ∧ r2 = { r1 with updated_at := t2 }
      ∧ r1.updated_at < r2.updated_at := by
  rw [handleMessage_static_eq t1 db m meta ship mm hty hship hmeta hmm hmm0]
  rw [handleMessage_static_eq t2 _ m meta ship mm hty hship hmeta hmm hmm0]
  dsimp only
  rw [findVessel_upsertVessel (toString mm)]
  · cases hfv : findVessel (toString mm) db.vessels with
    | none =>
      dsimp only [Option.elim]
      rw [findVessel_upsertVessel (toString mm)]
      · rw [findVessel_upsertVessel (toString mm)]
        · rw [hfv]
          dsimp only [Option.elim]
          exact ⟨_, _, rfl, rfl, rfl, ht⟩
        · rfl
        · intro w
          rfl
      · rfl
      · intro w
        rfl
    | some v0 =>
      dsimp only [Option.elim]
      rw [findVessel_upsertVessel (toString mm)]
      · rw [findVessel_upsertVessel (toString mm)]
        · rw [hfv]
          dsimp only [Option.elim]
          exact ⟨_, _, rfl, rfl, rfl, ht⟩
        · rfl
        · intro w
          rfl
      · rfl
      · intro w
        rfl
  · rfl
  · intro w
    rfl

/-- Witness for claim C4 at a concrete static message applied twice. -/
theorem static_upsert_idempotent_witness :
    (10 : Int) < 20
    ∧ ∃ r1 r2,
        findVessel (toString (7 : Int))
          (handleMessage 10 (.parsed msgStaticEx) emptyDB).vessels = some r1
        ∧ findVessel (toString (7 : Int))
            (handleMessage 20 (.parsed msgStaticEx)
              (handleMessage 10 (.parsed msgStaticEx) emptyDB)).vessels = some r2
        ∧ r2 = { r1 with updated_at := 20 }
        ∧ r1.updated_at < r2.updated_at :=
  ⟨by decide,
   static_upsert_idempotent 10 20 emptyDB msgStaticEx ⟨some 7, none, none⟩ shipEx 7
     rfl rfl rfl rfl (by decide) (by decide)⟩

/-- Claim C7, counterexample: the handler stores `NOW()` in the
`timestamp` column, not the source-asserted report time; at a message
whose metadata asserts report time 555 and server time 999, the stored
report-timestamp is 999 ≠ 555 and coincides with the ingestion
timestamp `created_at`, refuting both halves of the claim. -/
theorem report_timestamp_not_source_cex :
    msgPosEx.MetaData.map MetaData.time_utc = some (some 555)
    ∧ (handleMessage 999 (.parsed msgPosEx) emptyDB).ais_positions.map
        PositionRow.timestamp = [999]
    ∧ ((999 : Int) ≠ 555)
    ∧ (handleMessage 999 (.parsed msgPosEx) emptyDB).ais_positions.map
        PositionRow.created_at = [999] := by
  exact ⟨rfl, rfl, by decide, rfl⟩

/-- Claim C7 (amended): for every stored PositionRecord the
report-timestamp column is assigned the server time `NOW()` at
insertion — not the source-asserted report time carried by the message
metadata — and therefore always equals the server-assigned ingestion
timestamp `created_at`. -/
theorem report_timestamp_matches_ingestion
    (now : Int) (db : DB) (m : AISMessage) (meta : MetaData) (pos : PositionReport)
    (mm lat lng : Int)
    (hty : m.MessageType = "PositionReport")
    (hpos : m.Message.bind MessagePayload.PositionReport = some pos)
    (hmeta : m.MetaData = some meta)
    (hmm : meta.MMSI = some mm) (hmm0 : mm ≠ 0)
    (hlat : pos.Latitude = some lat) (hlat0 : lat ≠ 0)
    (hlng : pos.Longitude = some lng) (hlng0 : lng ≠ 0) :
    ∃ r, (handleMessage now (.parsed m) db).ais_positions = db.ais_positions ++ [r]
      ∧ r.timestamp = now ∧ r.created_at = now ∧ r.timestamp = r.created_at := by
  rw [handleMessage_position_eq now db m meta pos mm lat lng hty hpos hmeta hmm hmm0 hlat
    hlat0 hlng hlng0]
  exact ⟨_, rfl, rfl, rfl, rfl⟩

/-- Witness for the amended claim C7. -/
theorem report_timestamp_matches_ingestion_witness :
    ((7 : Int) ≠ 0 ∧ (10 : Int) ≠ 0 ∧ (20 : Int) ≠ 0)
    ∧ ∃ r, (handleMessage 999 (.parsed msgPosEx) emptyDB).ais_positions
          = emptyDB.ais_positions ++ [r]
        ∧ r.timestamp = 999 ∧ r.created_at = 999 ∧ r.timestamp = r.created_at :=
  ⟨⟨by decide, by decide, by decide⟩,
   report_timestamp_matches_ingestion 999 emptyDB msgPosEx ⟨some 7, none, some 555⟩
     posPayloadEx 7 10 20 rfl rfl rfl rfl (by decide) rfl (by decide) rfl (by decide)⟩

/-- Claim C8, counterexample: a valid position message with the
navigation-status field absent stores the string "0" (the stringified
numeric default), not an "unknown" sentinel, refuting the claim as
stated. -/
theorem nav_status_not_unknown_cex :
    posPayloadEx.NavigationalStatus = none
    ∧ (handleMessage 50 (.parsed msgPosEx) emptyDB).ais_positions.map
        PositionRow.nav_status = ["0"]
    ∧ ("0" : String) ≠ "unknown" := by
  exact ⟨rfl, rfl, by decide⟩

/-- Claim C8 (amended): for every valid position message in which the
navigation-status field is absent, the stored record carries the string
"0" — the same numeric default 0 that absent speed, heading and course
receive, stringified — rather than a distinct "unknown" sentinel. -/
theorem nav_status_default_zero
    (now : Int) (db : DB) (m : AISMessage) (meta : MetaData) (pos : PositionReport)
    (mm lat lng : Int)
    (hty : m.MessageType = "PositionReport")
    (hpos : m.Message.bind MessagePayload.PositionReport = some pos)
    (hmeta : m.MetaData = some meta)
    (hmm : meta.MMSI = some mm) (hmm0 : mm ≠ 0)
    (hlat : pos.Latitude = some lat) (hlat0 : lat ≠ 0)
    (hlng : pos.Longitude = some lng) (hlng0 : lng ≠ 0)
    (hnav : pos.NavigationalStatus = none)
    (hsog : pos.Sog = none) (hhdg : pos.TrueHeading = none) (hcog : pos.Cog = none) :
    ∃ r, (handleMessage now (.parsed m) db).ais_positions = db.ais_positions ++ [r]
      ∧ r.nav_status = "0" ∧ r.speed = 0 ∧ r.heading = 0 ∧ r.course = 0 := by
  rw [handleMessage_position_eq now db m meta pos mm lat lng hty hpos hmeta hmm hmm0 hlat
    hlat0 hlng hlng0]
  refine ⟨_, rfl, ?_, ?_, ?_, ?_⟩
  · rw [hnav]
    rfl
  · rw [hsog]
    rfl
  · rw [hhdg]
    rfl
  · rw [hcog]
    rfl

/-- Witness for the amended claim C8. -/
theorem nav_status_default_zero_witness :
    posPayloadEx.NavigationalStatus = none
    ∧ ∃ r, (handleMessage 50 (.parsed msgPosEx) emptyDB).ais_positions
          = emptyDB.ais_positions ++ [r]
        ∧ r.nav_status = "0" ∧ r.speed = 0 ∧ r.heading = 0 ∧ r.course = 0 :=
  ⟨rfl,
   nav_status_default_zero 50 emptyDB msgPosEx ⟨some 7, none, some 555⟩ posPayloadEx 7 10 20
     rfl rfl rfl rfl (by decide) rfl (by decide) rfl (by decide) rfl rfl rfl rfl⟩

/-- Claim C9: for every static-data event the stored length is the sum
of the bow and stern offsets and the stored width the sum of the port
and starboard offsets, absent offsets counting as 0, and a zero
per-axis sum is stored as NULL, never as the number 0. -/
theorem static_dimensions_spec
    (now : Int) (db : DB) (m : AISMessage) (meta : MetaData) (ship : ShipStaticData)
    (mm : Int)
    (hty : m.MessageType = "ShipStaticData")
    (hship : m.Message.bind MessagePayload.ShipStaticData = some ship)
    (hmeta : m.MetaData = some meta)
    (hmm : meta.MMSI = some mm) (hmm0 : mm ≠ 0) :
    ∃ v, findVessel (toString mm) (handleMessage now (.parsed m) db).vessels = some v
      ∧ v.length = (if dimGet ship.Dimension Dimension.A + dimGet ship.Dimension Dimension.B = 0
          then none
          else some (dimGet ship.Dimension Dimension.A + dimGet ship.Dimension Dimension.B))
      ∧ v.width = (if dimGet ship.Dimension Dimension.C + dimGet ship.Dimension Dimension.D = 0
          then none
          else some (dimGet ship.Dimension Dimension.C + dimGet ship.Dimension Dimension.D)) := by
  rw [handleMessage_static_eq now db m meta ship mm hty hship hmeta hmm hmm0]
  dsimp only
  rw [findVessel_upsertVessel (toString mm)]
  · cases findVessel (toString mm) db.vessels with
    | none => exact ⟨_, rfl, rfl, rfl⟩
    | some v0 => exact ⟨_, rfl, rfl, rfl⟩
  · rfl
  · intro w
    rfl

/-- Witness for claim C9: bow 3 + stern 4 gives length 7; the absent
port and starboard offsets sum to 0 and the width is stored as NULL. -/
theorem static_dimensions_spec_witness :
    (7 : Int) ≠ 0
    ∧ ∃ v, findVessel (toString (7 : Int))
          (handleMessage 50 (.parsed msgStaticEx) emptyDB).vessels = some v
        ∧ v.length = (if dimGet shipEx.Dimension Dimension.A + dimGet shipEx.Dimension Dimension.B = 0
            then none
            else some (dimGet shipEx.Dimension Dimension.A + dimGet shipEx.Dimension Dimension.B))
        ∧ v.width = (if dimGet shipEx.Dimension Dimension.C + dimGet shipEx.Dimension Dimension.D = 0
            then none
            else some (dimGet shipEx.Dimension Dimension.C + dimGet shipEx.Dimension Dimension.D)) :=
  ⟨by decide,
   static_dimensions_spec 50 emptyDB msgStaticEx ⟨some 7, none, none⟩ shipEx 7
     rfl rfl rfl rfl (by decide)⟩

/-- `byCreatedAt` is transitive. -/
theorem byCreatedAt_trans : ∀ a b c : PositionRow,
    byCreatedAt a b = true → byCreatedAt b c = true → byCreatedAt a c = true := by
  intro a b c hab hbc
  simp only [byCreatedAt, decide_eq_true_eq] at *
  omega

/-- `byCreatedAt` is total. -/
theorem byCreatedAt_total : ∀ a b : PositionRow,
    (byCreatedAt a b || byCreatedAt b a) = true := by
  intro a b
  simp only [byCreatedAt, Bool.or_eq_true, decide_eq_true_eq]
  omega

/-- Dropping the rows whose ids head the `created_at`-sorted order
removes exactly `k` of `n` rows (ids must be distinct: they form the
SERIAL primary key). -/
theorem oldestTake_length (rows : List PositionRow) (k : Nat)
    (hk : k ≤ rows.length)
    (hnd : (rows.map PositionRow.id).Nodup) :
    (rows.filter (fun r =>
      !((((rows.mergeSort byCreatedAt).take k).map PositionRow.id).contains r.id))).length + k
      = rows.length := by
  generalize hV : (rows.mergeSort byCreatedAt).take k = V
  have hperm : (rows.mergeSort byCreatedAt).Perm rows := List.mergeSort_perm rows byCreatedAt
  have hlen : (rows.mergeSort byCreatedAt).length = rows.length := hperm.length_eq
  have hndS : ((rows.mergeSort byCreatedAt).map PositionRow.id).Nodup :=
    ((hperm.map PositionRow.id).nodup_iff).mpr hnd
  have hdec : V ++ (rows.mergeSort byCreatedAt).drop k = rows.mergeSort byCreatedAt := by
    rw [← hV]
    exact List.take_append_drop k _
  have hnd2 : (V.map PositionRow.id
      ++ ((rows.mergeSort byCreatedAt).drop k).map PositionRow.id).Nodup := by
    rw [← List.map_append, hdec]
    exact hndS
  have hdisj := (List.nodup_append.mp hnd2).2.2
  rw [← List.countP_eq_length_filter]
  have hcount : rows.countP (fun r => !((V.map PositionRow.id).contains r.id))
      = (rows.mergeSort byCreatedAt).countP
          (fun r => !((V.map PositionRow.id).contains r.id)) :=
    (List.Perm.countP_eq _ hperm).symm
  rw [hcount, ← hdec, List.countP_append]
  have h0 : V.countP (fun r => !((V.map PositionRow.id).contains r.id)) = 0 := by
    rw [List.countP_eq_zero]
    intro a ha
    have hmem : a.id ∈ V.map PositionRow.id := List.mem_map_of_mem _ ha
    simp [hmem]
  have h1 : ((rows.mergeSort byCreatedAt).drop k).countP
      (fun r => !((V.map PositionRow.id).contains r.id))
      = ((rows.mergeSort byCreatedAt).drop k).length := by
    rw [List.countP_eq_length]
    intro a ha
    have hmem : a.id ∈ ((rows.mergeSort byCreatedAt).drop k).map PositionRow.id :=
      List.mem_map_of_mem _ ha
    have hnotin : a.id ∉ V.map PositionRow.id := fun hin => hdisj hin hmem
    simp [hnotin]
  rw [h0, h1, List.length_drop, hlen]
  omega

/-- Every row deleted by the sorted-take selection is at most as recent
as every kept row. -/
theorem oldestTake_oldest (rows : List PositionRow) (k : Nat)
    (hnd : (rows.map PositionRow.id).Nodup) :
    ∀ r ∈ rows,
      r ∉ rows.filter (fun x =>
        !((((rows.mergeSort byCreatedAt).take k).map PositionRow.id).contains x.id)) →
      ∀ s ∈ rows.filter (fun x =>
        !((((rows.mergeSort byCreatedAt).take k).map PositionRow.id).contains x.id)),
        r.created_at ≤ s.created_at := by
  generalize hV : (rows.mergeSort byCreatedAt).take k = V
  intro r hr hrk s hs
  have hperm : (rows.mergeSort byCreatedAt).Perm rows := List.mergeSort_perm rows byCreatedAt
  have hndS : ((rows.mergeSort byCreatedAt).map PositionRow.id).Nodup :=
    ((hperm.map PositionRow.id).nodup_iff).mpr hnd
  have hdec : V ++ (rows.mergeSort byCreatedAt).drop k = rows.mergeSort byCreatedAt := by
    rw [← hV]
    exact List.take_append_drop k _
  rw [List.mem_filter] at hs
  obtain ⟨hsrows, hsp⟩ := hs
  have hrid : r.id ∈ V.map PositionRow.id := by
    by_contra hrid
    exact hrk (List.mem_filter.mpr ⟨hr, by simpa using hrid⟩)
  have hsid : s.id ∉ V.map PositionRow.id := by simpa using hsp
  obtain ⟨v, hvV, hvid⟩ := List.mem_map.mp hrid
  have hrS : r ∈ rows.mergeSort byCreatedAt := hperm.mem_iff.mpr hr
  have hvS : v ∈ rows.mergeSort byCreatedAt := by
    have hsub : V.Sublist (rows.mergeSort byCreatedAt) := by
      rw [← hV]
      exact List.take_sublist k _
    exact hsub.subset hvV
  have hveq : v = r := List.inj_on_of_nodup_map hndS hvS hrS hvid
  have hrV : r ∈ V := hveq ▸ hvV
  have hsS : s ∈ rows.mergeSort byCreatedAt := hperm.mem_iff.mpr hsrows
  have hsVD : s ∈ V ++ (rows.mergeSort byCreatedAt).drop k := by
    rw [hdec]
    exact hsS
  have hsD : s ∈ (rows.mergeSort byCreatedAt).drop k := by
    rcases List.mem_append.mp hsVD with h | h
    · exact absurd (List.mem_map_of_mem _ h) hsid
    · exact h
  have hpair : (rows.mergeSort byCreatedAt).Pairwise (fun a b => byCreatedAt a b = true) :=
    List.sorted_mergeSort byCreatedAt_trans byCreatedAt_total rows
  have hpair2 : (V ++ (rows.mergeSort byCreatedAt).drop k).Pairwise
      (fun a b => byCreatedAt a b = true) := by
    rw [hdec]
    exact hpair
  have hle := (List.pairwise_append.mp hpair2).2.2 r hrV s hsD
  simpa [byCreatedAt, decide_eq_true_eq] using hle

/-- Claim C6: when the measured database size exceeds the 70 GB ceiling
the size-based step deletes exactly `⌈0.1 × n⌉` rows — `n` the history
row count at that moment — and the deleted rows are oldest by ingestion
timestamp (each deleted row is no newer than any kept row); at or below
the ceiling the step deletes nothing. -/
theorem size_retention_valve (sizeBytes : Nat) (db : DB)
    (hnd : (db.ais_positions.map PositionRow.id).Nodup) :
    (sizeBytes ≤ sizeCeiling → sizeCleanup sizeBytes db = db)
    ∧ (sizeBytes > sizeCeiling →
        (sizeCleanup sizeBytes db).ais_positions.length
            + (db.ais_positions.length + 9) / 10 = db.ais_positions.length
        ∧ ∀ r ∈ db.ais_positions, r ∉ (sizeCleanup sizeBytes db).ais_positions →
            ∀ s ∈ (sizeCleanup sizeBytes db).ais_positions, r.created_at ≤ s.created_at) := by
  constructor
  · intro hle
    simp only [sizeCleanup]
    rw [if_neg (by omega)]
  · intro hgt
    have hcl : (sizeCleanup sizeBytes db).ais_positions
        = db.ais_positions.filter (fun r =>
            !((((db.ais_positions.mergeSort byCreatedAt).take
                ((db.ais_positions.length + 9) / 10)).map PositionRow.id).contains r.id)) := by
      simp only [sizeCleanup]
      rw [if_pos hgt]
    rw [hcl]
    exact ⟨oldestTake_length _ _ (by omega) hnd, oldestTake_oldest _ _ hnd⟩

/-- Witness for claim C6 at a three-row store measured one byte above
the ceiling: one row (the oldest, id 1) is deleted. -/
theorem size_retention_valve_witness :
    (dbC6.ais_positions.map PositionRow.id).Nodup
    ∧ ((sizeCeiling + 1 ≤ sizeCeiling → sizeCleanup (sizeCeiling + 1) dbC6 = dbC6)
      ∧ (sizeCeiling + 1 > sizeCeiling →
          (sizeCleanup (sizeCeiling + 1) dbC6).ais_positions.length
              + (dbC6.ais_positions.length + 9) / 10 = dbC6.ais_positions.length
          ∧ ∀ r ∈ dbC6.ais_positions, r ∉ (sizeCleanup (sizeCeiling + 1) dbC6).ais_positions →
              ∀ s ∈ (sizeCleanup (sizeCeiling + 1) dbC6).ais_positions,
                r.created_at ≤ s.created_at)) :=
  ⟨by decide, size_retention_valve (sizeCeiling + 1) dbC6 (by decide)⟩
